import Mathlib

/-!
Verification of the net-geometry core of `elipticalprismnet29-11-24.py`,
the script that computes the flattened ("net") cutting template of an
elliptical-prism lampshade.

The numeric core of the script (lines 46-63) is:

* obtain `perimeter` from the external CAD kernel
  (`base.edges().objects[0].Length()`),
* `t = np.linspace(0, perimeter, 200)`,
* `amplitude_k = MAJOR_AXIS * np.tan(np.radians(CUTk_ANGLE))`,
* `cut1_y = CUT1_START_HEIGHT + amplitude1 * (1 + np.sin(2*np.pi*t/perimeter - np.pi/2))`,
* `cut2_y = CUT2_START_HEIGHT + amplitude2 * (1 + np.sin(2*np.pi*t/perimeter + np.pi/2))`,
* `cut_y = np.minimum(np.maximum(cut_y, 0), HEIGHT)`.

We embed this computation over the real numbers, with the perimeter passed in
explicitly as the value produced by the external kernel.  The script performs
no parameter validation of its own; its only error handling is a `try/except`
wrapper that logs any exception and calls `sys.exit(1)`.
-/

namespace ElipticalPrismNet

open Real

/-- The parameters of the computation.  In the script they are the module
constants `MAJOR_AXIS = 12`, `MINOR_AXIS = 4`, `HEIGHT = 25`,
`CUT1_ANGLE = 45`, `CUT2_ANGLE = 45`, `CUT1_START_HEIGHT = 3`,
`CUT2_START_HEIGHT = 1` (lines 27-34); conceptually they are configuration. -/
structure Params where
  majorAxis : ℝ
  minorAxis : ℝ
  height : ℝ
  cut1Angle : ℝ
  cut1StartHeight : ℝ
  cut2Angle : ℝ
  cut2StartHeight : ℝ

/-- The script's baked-in configuration (lines 27-34). -/
def defaultParams : Params :=
  { majorAxis := 12, minorAxis := 4, height := 25,
    cut1Angle := 45, cut1StartHeight := 3,
    cut2Angle := 45, cut2StartHeight := 1 }

/-- The script's configuration with both cut angles set to 0 degrees
(the boundary case of the spec's "Boundary" testable property). -/
def zeroAngleParams : Params :=
  { defaultParams with cut1Angle := 0, cut2Angle := 0 }

/-- Degrees to radians, `np.radians d`. -/
noncomputable def radians (d : ℝ) : ℝ := d * (Real.pi / 180)

/-- Amplitudes of the cut sinusoids,
`amplitude_k = MAJOR_AXIS * np.tan(np.radians(CUTk_ANGLE))` (lines 54-55). -/
noncomputable def amplitude (axis angleDeg : ℝ) : ℝ :=
  axis * Real.tan (radians angleDeg)

/-- The sample grid `t = np.linspace(0, perimeter, 200)` (line 51): 200 evenly spaced values,
the i-th being `0 + i * (perimeter - 0) / (200 - 1)`. -/
noncomputable def samplesList (perimeter : ℝ) : List ℝ :=
  List.ofFn (fun i : Fin 200 => 0 + (i : ℕ) * (perimeter - 0) / (200 - 1))

/-- Unclipped first cut line (line 58):
`cut1_y = CUT1_START_HEIGHT + amplitude1 * (1 + np.sin(2*np.pi*t/perimeter - np.pi/2))`. -/
noncomputable def cut1_y_raw (p : Params) (perimeter t : ℝ) : ℝ :=
  p.cut1StartHeight +
    amplitude p.majorAxis p.cut1Angle *
      (1 + Real.sin (2 * Real.pi * t / perimeter - Real.pi / 2))

/-- Unclipped second cut line (line 59):
`cut2_y = CUT2_START_HEIGHT + amplitude2 * (1 + np.sin(2*np.pi*t/perimeter + np.pi/2))`. -/
noncomputable def cut2_y_raw (p : Params) (perimeter t : ℝ) : ℝ :=
  p.cut2StartHeight +
    amplitude p.majorAxis p.cut2Angle *
      (1 + Real.sin (2 * Real.pi * t / perimeter + Real.pi / 2))

/-- Elementwise clipping (lines 62-63):
`np.minimum(np.maximum(y, 0), HEIGHT)`. -/
noncomputable def clip (height y : ℝ) : ℝ := min (max y 0) height

/-- The transient result entity: perimeter, sample parameters, the straight
bottom edge `[(0,0), (perimeter,0)]` (line 70), and the two clipped cut
lines, one y-value per sample. -/
structure UnrolledNet where
  perimeter : ℝ
  samples : List ℝ
  bottomEdge : (ℝ × ℝ) × (ℝ × ℝ)
  cutLine1 : List ℝ
  cutLine2 : List ℝ

/-- The clipped first cut line, one value per sample (lines 58 and 62). -/
noncomputable def cutLine1List (p : Params) (perimeter : ℝ) : List ℝ :=
  (samplesList perimeter).map fun t => clip p.height (cut1_y_raw p perimeter t)

/-- The clipped second cut line, one value per sample (lines 59 and 63). -/
noncomputable def cutLine2List (p : Params) (perimeter : ℝ) : List ℝ :=
  (samplesList perimeter).map fun t => clip p.height (cut2_y_raw p perimeter t)

/-- The geometry part of `calculate_net_geometry` (lines 51-63), with
`perimeter` the length reported by the external CAD kernel at line 47.
The cut lines are computed at every sample and then clipped elementwise. -/
noncomputable def calculate_net_geometry (p : Params) (perimeter : ℝ) : UnrolledNet :=
  { perimeter := perimeter
    samples := samplesList perimeter
    bottomEdge := ((0, 0), (perimeter, 0))
    cutLine1 := cutLine1List p perimeter
    cutLine2 := cutLine2List p perimeter }

/-- Modelled from the spec: the ellipse perimeter is obtained in the source
from the external CAD kernel (`cq.Workplane("XY").ellipse(MINOR_AXIS,
MAJOR_AXIS)` followed by `.edges().objects[0].Length()`, lines 46-47), whose
numerical method is not part of this repository.  The spec directs that "any
accurate ellipse-perimeter formula, e.g. Ramanujan's approximation ... is
acceptable"; we use Ramanujan's first approximation
`π * (3*(a+b) - √((3*a+b)*(a+3*b)))`. -/
noncomputable def ellipsePerimeter (a b : ℝ) : ℝ :=
  Real.pi * (3 * (a + b) - Real.sqrt ((3 * a + b) * (a + 3 * b)))

/-- Failure taxonomy named by the spec for `computeNet`. -/
inductive NetError where
  | invalidParameter : NetError
deriving DecidableEq

/-- The `computeNet` operation of the spec, as the source realises it:
`calculate_net_geometry` performs no parameter validation whatsoever before
(or after) the numeric core (there is no check on axes, height or angles
anywhere in lines 36-63), so the embedded operation never produces an
`invalidParameter` outcome; it always returns the net built from the
parameters and the (externally computed) perimeter. -/
noncomputable def computeNet (p : Params) : Except NetError UnrolledNet :=
  Except.ok (calculate_net_geometry p (ellipsePerimeter p.minorAxis p.majorAxis))

/-- The net produced by a (necessarily successful) run of `computeNet`. -/
noncomputable def computeNetGeom (p : Params) : UnrolledNet :=
  calculate_net_geometry p (ellipsePerimeter p.minorAxis p.majorAxis)

/-! ### Helper lemmas -/

/-- Unfolding equation for the sample grid.  All further reasoning about the
grid goes through this equation; `samplesList` is then made irreducible so
that no definitional-equality check ever materialises the 200-element list. -/
theorem samplesList_ofFn (perimeter : ℝ) :
    samplesList perimeter
      = List.ofFn (fun i : Fin 200 => 0 + (i : ℕ) * (perimeter - 0) / (200 - 1)) := rfl

attribute [irreducible] samplesList

/-- The `samples` field of the result is the sample grid. -/
theorem net_samples_eq (p : Params) (perimeter : ℝ) :
    (calculate_net_geometry p perimeter).samples = samplesList perimeter := rfl

/-- The `perimeter` field of the result is the input perimeter. -/
theorem net_perimeter_eq (p : Params) (perimeter : ℝ) :
    (calculate_net_geometry p perimeter).perimeter = perimeter := rfl

/-- The `cutLine1` field of the result is the clipped first cut line. -/
theorem net_cutLine1_eq (p : Params) (perimeter : ℝ) :
    (calculate_net_geometry p perimeter).cutLine1 = cutLine1List p perimeter := rfl

/-- The `cutLine2` field of the result is the clipped second cut line. -/
theorem net_cutLine2_eq (p : Params) (perimeter : ℝ) :
    (calculate_net_geometry p perimeter).cutLine2 = cutLine2List p perimeter := rfl

/-- Clipping always lands in `[0, height]` when the height is nonnegative. -/
theorem clip_bounds (h y : ℝ) (hh : 0 ≤ h) : 0 ≤ clip h y ∧ clip h y ≤ h :=
  ⟨le_min (le_max_right _ _) hh, min_le_right _ _⟩

/-- The i-th sample parameter, in closed form. -/
theorem samplesList_getElem (perimeter : ℝ) (i : ℕ) (h : i < 200) :
    (samplesList perimeter)[i]? = some (0 + (i : ℝ) * (perimeter - 0) / (200 - 1)) := by
  rw [samplesList_ofFn, List.getElem?_ofFn]
  simp only [List.ofFnNthVal]
  rw [dif_pos h]

/-- The i-th clipped value of the first cut line, in closed form. -/
theorem cutLine1List_getElem (p : Params) (perimeter : ℝ) (i : ℕ) (h : i < 200) :
    (cutLine1List p perimeter)[i]?
      = some (clip p.height
          (cut1_y_raw p perimeter (0 + (i : ℝ) * (perimeter - 0) / (200 - 1)))) := by
  rw [cutLine1List, List.getElem?_map, samplesList_getElem perimeter i h, Option.map_some']

/-- The i-th clipped value of the second cut line, in closed form. -/
theorem cutLine2List_getElem (p : Params) (perimeter : ℝ) (i : ℕ) (h : i < 200) :
    (cutLine2List p perimeter)[i]?
      = some (clip p.height
          (cut2_y_raw p perimeter (0 + (i : ℝ) * (perimeter - 0) / (200 - 1)))) := by
  rw [cutLine2List, List.getElem?_map, samplesList_getElem perimeter i h, Option.map_some']

/-- Ramanujan's perimeter approximation is positive on positive semi-axes
(the spec's invariant "`perimeter` > 0 whenever axis lengths are positive"). -/
theorem ellipsePerimeter_pos {a b : ℝ} (ha : 0 < a) (hb : 0 < b) :
    0 < ellipsePerimeter a b := by
  unfold ellipsePerimeter
  have h3 : (0 : ℝ) < 3 * (a + b) := by linarith
  have hs : Real.sqrt ((3 * a + b) * (a + 3 * b)) < 3 * (a + b) := by
    rw [Real.sqrt_lt' h3]
    nlinarith
  have hpos : 0 < 3 * (a + b) - Real.sqrt ((3 * a + b) * (a + 3 * b)) := by linarith
  exact mul_pos Real.pi_pos hpos

/-- Tangent of 45 degrees is 1, in the degree convention of the script. -/
theorem tan_radians_45 : Real.tan (radians 45) = 1 := by
  rw [show radians 45 = Real.pi / 4 by unfold radians; ring]
  exact Real.tan_pi_div_four

/-- At `t = 0` the first sinusoid sits at its minimum phase. -/
theorem cut1_raw_zero (p : Params) (perimeter : ℝ) :
    cut1_y_raw p perimeter 0 = p.cut1StartHeight := by
  unfold cut1_y_raw
  rw [show 2 * Real.pi * 0 / perimeter - Real.pi / 2 = -(Real.pi / 2) by ring,
    Real.sin_neg, Real.sin_pi_div_two]
  ring

/-- At `t = 0` the second sinusoid sits at its maximum phase. -/
theorem cut2_raw_zero (p : Params) (perimeter : ℝ) :
    cut2_y_raw p perimeter 0 = p.cut2StartHeight + 2 * amplitude p.majorAxis p.cut2Angle := by
  unfold cut2_y_raw
  rw [show 2 * Real.pi * 0 / perimeter + Real.pi / 2 = Real.pi / 2 by ring,
    Real.sin_pi_div_two]
  ring

/-- Unfolding equation: `computeNet` hands `calculate_net_geometry` the kernel's perimeter. -/
theorem computeNetGeom_eq (p : Params) :
    computeNetGeom p
      = calculate_net_geometry p (ellipsePerimeter p.minorAxis p.majorAxis) := rfl

/-- Nonnegative cut angles up to 90 degrees give nonnegative amplitudes. -/
theorem amplitude_nonneg {axis angle : ℝ} (hA : 0 ≤ axis)
    (h0 : 0 ≤ angle) (h90 : angle ≤ 90) : 0 ≤ amplitude axis angle := by
  refine mul_nonneg hA (Real.tan_nonneg_of_nonneg_of_le_pi_div_two ?_ ?_)
  · exact mul_nonneg h0 (by positivity)
  · show angle * (Real.pi / 180) ≤ Real.pi / 2
    nlinarith [Real.pi_pos]

/-- Nonpositive cut angles down to -90 degrees give nonpositive amplitudes. -/
theorem amplitude_nonpos {axis angle : ℝ} (hA : 0 ≤ axis)
    (h0 : angle ≤ 0) (h90 : -90 ≤ angle) : amplitude axis angle ≤ 0 := by
  have htan : Real.tan (radians angle) ≤ 0 := by
    refine Real.tan_nonpos_of_nonpos_of_neg_pi_div_two_le ?_ ?_
    · exact mul_nonpos_iff.2 (Or.inr ⟨h0, by positivity⟩)
    · show -(Real.pi / 2) ≤ angle * (Real.pi / 180)
      nlinarith [Real.pi_pos]
  exact mul_nonpos_iff.2 (Or.inl ⟨hA, htan⟩)

/-! ### Claim theorems -/

/-- C4: for positive axes and height, the samples sequence has exactly 200
values, the first is 0, the last is the perimeter, the values are strictly
increasing (hence monotonically non-decreasing), and consecutive values are
evenly spaced, each step being `perimeter / 199`. -/
theorem samples_spec (p : Params)
    (ha : 0 < p.majorAxis) (hb : 0 < p.minorAxis) (hh : 0 < p.height) :
    (computeNetGeom p).samples.length = 200 ∧
    (computeNetGeom p).samples[0]? = some 0 ∧
    (computeNetGeom p).samples[199]? = some (computeNetGeom p).perimeter ∧
    (computeNetGeom p).samples.Pairwise (· < ·) ∧
    (∀ i : ℕ, i + 1 < 200 → ∀ a b : ℝ,
        (computeNetGeom p).samples[i]? = some a →
        (computeNetGeom p).samples[i + 1]? = some b →
        b - a = (computeNetGeom p).perimeter / 199) := by
  have hP : 0 < ellipsePerimeter p.minorAxis p.majorAxis := ellipsePerimeter_pos hb ha
  rw [computeNetGeom_eq, net_samples_eq, net_perimeter_eq, samplesList_ofFn]
  refine ⟨List.length_ofFn _, ?_, ?_, ?_, ?_⟩
  · rw [List.getElem?_ofFn]
    simp only [List.ofFnNthVal]
    rw [dif_pos (by norm_num : (0 : ℕ) < 200)]
    norm_num
  · rw [List.getElem?_ofFn]
    simp only [List.ofFnNthVal]
    rw [dif_pos (by norm_num : (199 : ℕ) < 200)]
    congr 1
    push_cast
    ring
  · rw [List.pairwise_ofFn]
    intro i j hij
    have hij' : ((i : ℕ) : ℝ) < ((j : ℕ) : ℝ) := by exact_mod_cast hij
    have hstep : (0 : ℝ) < (ellipsePerimeter p.minorAxis p.majorAxis - 0) / (200 - 1) := by
      apply div_pos (by linarith) (by norm_num)
    have := mul_lt_mul_of_pos_right hij'
      (by positivity : (0 : ℝ) < (ellipsePerimeter p.minorAxis p.majorAxis - 0) / (200 - 1))
    calc (0 : ℝ) + (i : ℕ) * (ellipsePerimeter p.minorAxis p.majorAxis - 0) / (200 - 1)
        = (i : ℕ) * ((ellipsePerimeter p.minorAxis p.majorAxis - 0) / (200 - 1)) := by ring
      _ < (j : ℕ) * ((ellipsePerimeter p.minorAxis p.majorAxis - 0) / (200 - 1)) := this
      _ = 0 + (j : ℕ) * (ellipsePerimeter p.minorAxis p.majorAxis - 0) / (200 - 1) := by ring
  · intro i hi a b hA hB
    rw [List.getElem?_ofFn] at hA hB
    simp only [List.ofFnNthVal] at hA hB
    rw [dif_pos (by omega : i < 200)] at hA
    rw [dif_pos hi] at hB
    obtain rfl := Option.some.inj hA
    obtain rfl := Option.some.inj hB
    push_cast
    ring

/-- Witness for C4 at the script's own configuration. -/
theorem samples_spec_witness :
    (computeNetGeom defaultParams).samples.length = 200 ∧
    (computeNetGeom defaultParams).samples[0]? = some 0 ∧
    (computeNetGeom defaultParams).samples[199]? = some (computeNetGeom defaultParams).perimeter ∧
    (computeNetGeom defaultParams).samples.Pairwise (· < ·) ∧
    (∀ i : ℕ, i + 1 < 200 → ∀ a b : ℝ,
        (computeNetGeom defaultParams).samples[i]? = some a →
        (computeNetGeom defaultParams).samples[i + 1]? = some b →
        b - a = (computeNetGeom defaultParams).perimeter / 199) :=
  samples_spec defaultParams (by norm_num [defaultParams]) (by norm_num [defaultParams])
    (by norm_num [defaultParams])

/-- C1: for every perimeter > 0, cut angles in (-90, 90) degrees and real
start heights, the unclipped cut-line values computed by
`calculate_net_geometry` at each sample `t` satisfy
`cutLine1_y(t) = cut1StartHeight + amplitude1 * (1 + sin(2*pi*t/perimeter - pi/2))`
and
`cutLine2_y(t) = cut2StartHeight + amplitude2 * (1 + sin(2*pi*t/perimeter + pi/2))`,
with `amplitude_k = majorAxis * tan(radians(cutKAngle))`. -/
theorem cutLines_match_formula (p : Params) (perimeter : ℝ)
    (hP : 0 < perimeter)
    (h1l : -90 < p.cut1Angle) (h1r : p.cut1Angle < 90)
    (h2l : -90 < p.cut2Angle) (h2r : p.cut2Angle < 90)
    (t : ℝ) (ht : t ∈ (calculate_net_geometry p perimeter).samples) :
    cut1_y_raw p perimeter t
      = p.cut1StartHeight + p.majorAxis * Real.tan (radians p.cut1Angle)
          * (1 + Real.sin (2 * Real.pi * t / perimeter - Real.pi / 2)) ∧
    cut2_y_raw p perimeter t
      = p.cut2StartHeight + p.majorAxis * Real.tan (radians p.cut2Angle)
          * (1 + Real.sin (2 * Real.pi * t / perimeter + Real.pi / 2)) :=
  ⟨rfl, rfl⟩

/-- Witness for C1 at the script's own configuration, perimeter 1, sample 0. -/
theorem cutLines_match_formula_witness :
    cut1_y_raw defaultParams 1 0
      = defaultParams.cut1StartHeight
          + defaultParams.majorAxis * Real.tan (radians defaultParams.cut1Angle)
          * (1 + Real.sin (2 * Real.pi * 0 / 1 - Real.pi / 2)) ∧
    cut2_y_raw defaultParams 1 0
      = defaultParams.cut2StartHeight
          + defaultParams.majorAxis * Real.tan (radians defaultParams.cut2Angle)
          * (1 + Real.sin (2 * Real.pi * 0 / 1 + Real.pi / 2)) :=
  cutLines_match_formula defaultParams 1 (by norm_num)
    (by norm_num [defaultParams]) (by norm_num [defaultParams])
    (by norm_num [defaultParams]) (by norm_num [defaultParams])
    0
    (by
      rw [net_samples_eq, samplesList_ofFn, List.mem_ofFn]
      exact ⟨0, by norm_num⟩)

/-- C2: whenever the prism height is positive, every value of the returned
`cutLine1` and `cutLine2` lies in the closed interval `[0, height]`; moreover
the clipping map sends any value below 0 to 0 and any value above `height` to
`height`, and leaves in-range values unchanged. -/
theorem cutLines_clip_invariant (p : Params) (perimeter : ℝ) (hh : 0 < p.height) :
    (∀ y ∈ (calculate_net_geometry p perimeter).cutLine1, 0 ≤ y ∧ y ≤ p.height) ∧
    (∀ y ∈ (calculate_net_geometry p perimeter).cutLine2, 0 ≤ y ∧ y ≤ p.height) ∧
    (∀ y : ℝ, y < 0 → clip p.height y = 0) ∧
    (∀ y : ℝ, p.height < y → clip p.height y = p.height) ∧
    (∀ y : ℝ, 0 ≤ y → y ≤ p.height → clip p.height y = y) := by
  refine ⟨?_, ?_, ?_, ?_, ?_⟩
  · intro y hy
    rw [net_cutLine1_eq, cutLine1List] at hy
    obtain ⟨s, -, rfl⟩ := List.mem_map.1 hy
    exact clip_bounds _ _ hh.le
  · intro y hy
    rw [net_cutLine2_eq, cutLine2List] at hy
    obtain ⟨s, -, rfl⟩ := List.mem_map.1 hy
    exact clip_bounds _ _ hh.le
  · intro y hy
    unfold clip
    rw [max_eq_right hy.le, min_eq_left hh.le]
  · intro y hy
    unfold clip
    rw [max_eq_left (by linarith), min_eq_right hy.le]
  · intro y hy0 hyh
    unfold clip
    rw [max_eq_left hy0, min_eq_left hyh]

/-- Witness for C2 at the script's own configuration and perimeter 1. -/
theorem cutLines_clip_invariant_witness :
    (∀ y ∈ (calculate_net_geometry defaultParams 1).cutLine1,
        0 ≤ y ∧ y ≤ defaultParams.height) ∧
    (∀ y ∈ (calculate_net_geometry defaultParams 1).cutLine2,
        0 ≤ y ∧ y ≤ defaultParams.height) ∧
    (∀ y : ℝ, y < 0 → clip defaultParams.height y = 0) ∧
    (∀ y : ℝ, defaultParams.height < y → clip defaultParams.height y = defaultParams.height) ∧
    (∀ y : ℝ, 0 ≤ y → y ≤ defaultParams.height → clip defaultParams.height y = y) :=
  cutLines_clip_invariant defaultParams 1 (by norm_num [defaultParams])

/-- C3 counterexample: with the script's own configuration except that both
cut angles are exactly 90 degrees, `computeNet` does not fail with an
`invalidParameter` condition: the source contains no parameter check, the
tangent is computed, and a fully populated net (200 values per cut line) is
returned for rendering. -/
theorem computeNet_angle90_no_failure :
    (computeNet { majorAxis := 12, minorAxis := 4, height := 25,
                  cut1Angle := 90, cut1StartHeight := 3,
                  cut2Angle := 90, cut2StartHeight := 1 }).isOk = true ∧
    computeNet { majorAxis := 12, minorAxis := 4, height := 25,
                 cut1Angle := 90, cut1StartHeight := 3,
                 cut2Angle := 90, cut2StartHeight := 1 }
      ≠ Except.error NetError.invalidParameter ∧
    (computeNetGeom { majorAxis := 12, minorAxis := 4, height := 25,
                      cut1Angle := 90, cut1StartHeight := 3,
                      cut2Angle := 90, cut2StartHeight := 1 }).cutLine1.length = 200 := by
  refine ⟨rfl, fun h => Except.noConfusion h, ?_⟩
  rw [computeNetGeom_eq, net_cutLine1_eq, cutLine1List, List.length_map,
    samplesList_ofFn, List.length_ofFn]

/-- C3 amended: `calculate_net_geometry` performs no parameter validation at
all: for every parameter record (non-positive axes or height and cut angles
of exactly ±90 degrees included) the embedded `computeNet` succeeds,
returning the net built over the externally supplied perimeter, with 200
clipped values per cut line.  In the script, a degenerate ellipse can only
fail inside the external CAD kernel call, and that exception is caught by
the blanket `except` handler and turned into process exit 1, not an
`InvalidParameter` result. -/
theorem computeNet_no_validation (p : Params) :
    computeNet p = Except.ok (computeNetGeom p) ∧
    (computeNetGeom p).cutLine1.length = 200 ∧
    (computeNetGeom p).cutLine2.length = 200 := by
  refine ⟨rfl, ?_, ?_⟩
  · rw [computeNetGeom_eq, net_cutLine1_eq, cutLine1List, List.length_map,
      samplesList_ofFn, List.length_ofFn]
  · rw [computeNetGeom_eq, net_cutLine2_eq, cutLine2List, List.length_map,
      samplesList_ofFn, List.length_ofFn]

/-- C6: with the script's configuration (majorAxis 12, minorAxis 4, height
25, both cut angles 45 degrees, start heights 3 and 1), at the sample
`t = 0` the raw first cut value is 3 (clipped: 3) and the raw second cut
value is `1 + 2*12*tan(45 degrees) = 25`, clipped to exactly 25 at the
height ceiling. -/
theorem end_to_end_scenario :
    cut1_y_raw defaultParams (ellipsePerimeter 4 12) 0 = 3 ∧
    cut2_y_raw defaultParams (ellipsePerimeter 4 12) 0 = 25 ∧
    clip defaultParams.height (cut1_y_raw defaultParams (ellipsePerimeter 4 12) 0) = 3 ∧
    clip defaultParams.height (cut2_y_raw defaultParams (ellipsePerimeter 4 12) 0) = 25 ∧
    (computeNetGeom defaultParams).cutLine1[0]? = some 3 ∧
    (computeNetGeom defaultParams).cutLine2[0]? = some 25 := by
  have h1 : cut1_y_raw defaultParams (ellipsePerimeter 4 12) 0 = 3 :=
    cut1_raw_zero defaultParams (ellipsePerimeter 4 12)
  have h2 : cut2_y_raw defaultParams (ellipsePerimeter 4 12) 0 = 25 := by
    rw [cut2_raw_zero]
    show (1 : ℝ) + 2 * (12 * Real.tan (radians 45)) = 25
    rw [tan_radians_45]
    norm_num
  have hc1 : clip defaultParams.height (cut1_y_raw defaultParams (ellipsePerimeter 4 12) 0) = 3 := by
    rw [h1]
    show min (max (3 : ℝ) 0) 25 = 3
    norm_num
  have hc2 : clip defaultParams.height (cut2_y_raw defaultParams (ellipsePerimeter 4 12) 0) = 25 := by
    rw [h2]
    show min (max (25 : ℝ) 0) 25 = 25
    norm_num
  have hperim : ellipsePerimeter defaultParams.minorAxis defaultParams.majorAxis
      = ellipsePerimeter 4 12 := rfl
  refine ⟨h1, h2, hc1, hc2, ?_, ?_⟩
  · rw [computeNetGeom_eq, hperim, net_cutLine1_eq, cutLine1List, samplesList_ofFn,
      List.getElem?_map, List.getElem?_ofFn]
    simp only [List.ofFnNthVal]
    rw [dif_pos (by norm_num : (0 : ℕ) < 200)]
    rw [Option.map_some']
    congr 1
    simpa using hc1
  · rw [computeNetGeom_eq, hperim, net_cutLine2_eq, cutLine2List, samplesList_ofFn,
      List.getElem?_map, List.getElem?_ofFn]
    simp only [List.ofFnNthVal]
    rw [dif_pos (by norm_num : (0 : ℕ) < 200)]
    rw [Option.map_some']
    congr 1
    simpa using hc2

/-- C7: for every perimeter > 0 (and any angles and start heights), the
unclipped value of cut line 1 at `t = 0` is exactly `cut1StartHeight`
(`sin(-pi/2) = -1` cancels the amplitude term), and the unclipped value of
cut line 2 at `t = 0` is exactly `cut2StartHeight + 2 * amplitude2`
(`sin(pi/2) = 1`). -/
theorem raw_values_at_zero (p : Params) (perimeter : ℝ) (hP : 0 < perimeter) :
    cut1_y_raw p perimeter 0 = p.cut1StartHeight ∧
    cut2_y_raw p perimeter 0 = p.cut2StartHeight + 2 * amplitude p.majorAxis p.cut2Angle :=
  ⟨cut1_raw_zero p perimeter, cut2_raw_zero p perimeter⟩

/-- Witness for C7 at the script's own configuration and perimeter 1. -/
theorem raw_values_at_zero_witness :
    cut1_y_raw defaultParams 1 0 = defaultParams.cut1StartHeight ∧
    cut2_y_raw defaultParams 1 0
      = defaultParams.cut2StartHeight
          + 2 * amplitude defaultParams.majorAxis defaultParams.cut2Angle :=
  raw_values_at_zero defaultParams 1 (by norm_num)

/-- C5: the geometry computation is deterministic: identical inputs yield
identical outputs in all four series (and identical `computeNet` results);
the shallow embedding is a pure function of the parameter record, with no
other state. -/
theorem computeNet_deterministic (p q : Params) (h : p = q) :
    computeNet p = computeNet q ∧
    (computeNetGeom p).samples = (computeNetGeom q).samples ∧
    (computeNetGeom p).bottomEdge = (computeNetGeom q).bottomEdge ∧
    (computeNetGeom p).cutLine1 = (computeNetGeom q).cutLine1 ∧
    (computeNetGeom p).cutLine2 = (computeNetGeom q).cutLine2 := by
  subst h
  exact ⟨rfl, rfl, rfl, rfl, rfl⟩

/-- C8: a cut angle of exactly 0 degrees makes the corresponding amplitude 0,
so with both angles 0 both cut lines are constant over the whole sweep: every
raw value equals the respective start height, every clipped value equals the
clipped start height, and when a start height already lies in `[0, height]`
the clipped values equal the start height itself. -/
theorem flat_cutLines_at_zero_angle (p : Params) (perimeter : ℝ)
    (h1 : p.cut1Angle = 0) (h2 : p.cut2Angle = 0) :
    amplitude p.majorAxis p.cut1Angle = 0 ∧
    amplitude p.majorAxis p.cut2Angle = 0 ∧
    (∀ t : ℝ, cut1_y_raw p perimeter t = p.cut1StartHeight) ∧
    (∀ t : ℝ, cut2_y_raw p perimeter t = p.cut2StartHeight) ∧
    (∀ y ∈ (calculate_net_geometry p perimeter).cutLine1,
        y = clip p.height p.cut1StartHeight) ∧
    (∀ y ∈ (calculate_net_geometry p perimeter).cutLine2,
        y = clip p.height p.cut2StartHeight) ∧
    (0 ≤ p.cut1StartHeight → p.cut1StartHeight ≤ p.height →
        ∀ y ∈ (calculate_net_geometry p perimeter).cutLine1, y = p.cut1StartHeight) ∧
    (0 ≤ p.cut2StartHeight → p.cut2StartHeight ≤ p.height →
        ∀ y ∈ (calculate_net_geometry p perimeter).cutLine2, y = p.cut2StartHeight) := by
  have hamp1 : amplitude p.majorAxis p.cut1Angle = 0 := by
    rw [h1]
    unfold amplitude radians
    rw [zero_mul, Real.tan_zero, mul_zero]
  have hamp2 : amplitude p.majorAxis p.cut2Angle = 0 := by
    rw [h2]
    unfold amplitude radians
    rw [zero_mul, Real.tan_zero, mul_zero]
  have hraw1 : ∀ t : ℝ, cut1_y_raw p perimeter t = p.cut1StartHeight := by
    intro t
    unfold cut1_y_raw
    rw [hamp1]
    ring
  have hraw2 : ∀ t : ℝ, cut2_y_raw p perimeter t = p.cut2StartHeight := by
    intro t
    unfold cut2_y_raw
    rw [hamp2]
    ring
  have hlist1 : ∀ y ∈ (calculate_net_geometry p perimeter).cutLine1,
      y = clip p.height p.cut1StartHeight := by
    intro y hy
    rw [net_cutLine1_eq, cutLine1List] at hy
    obtain ⟨s, -, rfl⟩ := List.mem_map.1 hy
    rw [hraw1]
  have hlist2 : ∀ y ∈ (calculate_net_geometry p perimeter).cutLine2,
      y = clip p.height p.cut2StartHeight := by
    intro y hy
    rw [net_cutLine2_eq, cutLine2List] at hy
    obtain ⟨s, -, rfl⟩ := List.mem_map.1 hy
    rw [hraw2]
  refine ⟨hamp1, hamp2, hraw1, hraw2, hlist1, hlist2, ?_, ?_⟩
  · intro hs0 hsh y hy
    rw [hlist1 y hy]
    unfold clip
    rw [max_eq_left hs0, min_eq_left hsh]
  · intro hs0 hsh y hy
    rw [hlist2 y hy]
    unfold clip
    rw [max_eq_left hs0, min_eq_left hsh]

/-- Witness for C8: the script's configuration with both angles set to 0. -/
theorem flat_cutLines_at_zero_angle_witness :
    amplitude zeroAngleParams.majorAxis zeroAngleParams.cut1Angle = 0 ∧
    amplitude zeroAngleParams.majorAxis zeroAngleParams.cut2Angle = 0 ∧
    (∀ t : ℝ, cut1_y_raw zeroAngleParams 1 t = zeroAngleParams.cut1StartHeight) ∧
    (∀ t : ℝ, cut2_y_raw zeroAngleParams 1 t = zeroAngleParams.cut2StartHeight) ∧
    (∀ y ∈ (calculate_net_geometry zeroAngleParams 1).cutLine1,
        y = clip zeroAngleParams.height zeroAngleParams.cut1StartHeight) ∧
    (∀ y ∈ (calculate_net_geometry zeroAngleParams 1).cutLine2,
        y = clip zeroAngleParams.height zeroAngleParams.cut2StartHeight) ∧
    (0 ≤ zeroAngleParams.cut1StartHeight →
        zeroAngleParams.cut1StartHeight ≤ zeroAngleParams.height →
        ∀ y ∈ (calculate_net_geometry zeroAngleParams 1).cutLine1,
          y = zeroAngleParams.cut1StartHeight) ∧
    (0 ≤ zeroAngleParams.cut2StartHeight →
        zeroAngleParams.cut2StartHeight ≤ zeroAngleParams.height →
        ∀ y ∈ (calculate_net_geometry zeroAngleParams 1).cutLine2,
          y = zeroAngleParams.cut2StartHeight) :=
  flat_cutLines_at_zero_angle zeroAngleParams 1 rfl rfl

/-- C9: for every perimeter > 0, each cut line takes the same value at
`t = 0` and `t = perimeter`, both before and after clipping — the sinusoid
completes exactly one full period over `[0, perimeter]` — so the first and
last points of both cut lines coincide in height and the unrolled curves
close up when wrapped around the prism. -/
theorem net_closes_up (p : Params) (perimeter : ℝ) (hP : 0 < perimeter) :
    cut1_y_raw p perimeter perimeter = cut1_y_raw p perimeter 0 ∧
    cut2_y_raw p perimeter perimeter = cut2_y_raw p perimeter 0 ∧
    clip p.height (cut1_y_raw p perimeter perimeter)
      = clip p.height (cut1_y_raw p perimeter 0) ∧
    clip p.height (cut2_y_raw p perimeter perimeter)
      = clip p.height (cut2_y_raw p perimeter 0) ∧
    (calculate_net_geometry p perimeter).cutLine1[199]?
      = (calculate_net_geometry p perimeter).cutLine1[0]? ∧
    (calculate_net_geometry p perimeter).cutLine2[199]?
      = (calculate_net_geometry p perimeter).cutLine2[0]? := by
  have hpp : 2 * Real.pi * perimeter / perimeter = 2 * Real.pi := by
    rw [mul_div_assoc, div_self (ne_of_gt hP), mul_one]
  have e1 : cut1_y_raw p perimeter perimeter = cut1_y_raw p perimeter 0 := by
    unfold cut1_y_raw
    rw [hpp, show 2 * Real.pi - Real.pi / 2 = -(Real.pi / 2) + 2 * Real.pi by ring,
      Real.sin_add_two_pi,
      show 2 * Real.pi * 0 / perimeter - Real.pi / 2 = -(Real.pi / 2) by ring]
  have e2 : cut2_y_raw p perimeter perimeter = cut2_y_raw p perimeter 0 := by
    unfold cut2_y_raw
    rw [hpp, show 2 * Real.pi + Real.pi / 2 = Real.pi / 2 + 2 * Real.pi by ring,
      Real.sin_add_two_pi,
      show 2 * Real.pi * 0 / perimeter + Real.pi / 2 = Real.pi / 2 by ring]
  have hlast : (0 : ℝ) + ((199 : ℕ) : ℝ) * (perimeter - 0) / (200 - 1) = perimeter := by
    push_cast
    ring
  have hfirst : (0 : ℝ) + ((0 : ℕ) : ℝ) * (perimeter - 0) / (200 - 1) = 0 := by
    push_cast
    ring
  refine ⟨e1, e2, by rw [e1], by rw [e2], ?_, ?_⟩
  · rw [net_cutLine1_eq, cutLine1List_getElem p perimeter 199 (by norm_num),
      cutLine1List_getElem p perimeter 0 (by norm_num), hlast, hfirst, e1]
  · rw [net_cutLine2_eq, cutLine2List_getElem p perimeter 199 (by norm_num),
      cutLine2List_getElem p perimeter 0 (by norm_num), hlast, hfirst, e2]

/-- Witness for C9 at the script's own configuration and perimeter 1. -/
theorem net_closes_up_witness :
    cut1_y_raw defaultParams 1 1 = cut1_y_raw defaultParams 1 0 ∧
    cut2_y_raw defaultParams 1 1 = cut2_y_raw defaultParams 1 0 ∧
    clip defaultParams.height (cut1_y_raw defaultParams 1 1)
      = clip defaultParams.height (cut1_y_raw defaultParams 1 0) ∧
    clip defaultParams.height (cut2_y_raw defaultParams 1 1)
      = clip defaultParams.height (cut2_y_raw defaultParams 1 0) ∧
    (calculate_net_geometry defaultParams 1).cutLine1[199]?
      = (calculate_net_geometry defaultParams 1).cutLine1[0]? ∧
    (calculate_net_geometry defaultParams 1).cutLine2[199]?
      = (calculate_net_geometry defaultParams 1).cutLine2[0]? :=
  net_closes_up defaultParams 1 (by norm_num)

/-- C10: with a positive major axis and cut angles in (-90, 90) degrees,
every unclipped cut-line value lies between the start height and the start
height plus twice the amplitude: for a nonnegative angle the value lies in
`[start, start + 2*amplitude]` (the cut line never dips below its start
height before clipping), for a nonpositive angle the interval is reversed,
and the minimum is attained at `t = 0` for cut line 1. -/
theorem cutLines_envelope (p : Params) (perimeter t : ℝ)
    (hA : 0 < p.majorAxis)
    (h1l : -90 < p.cut1Angle) (h1r : p.cut1Angle < 90)
    (h2l : -90 < p.cut2Angle) (h2r : p.cut2Angle < 90) :
    (0 ≤ p.cut1Angle →
      p.cut1StartHeight ≤ cut1_y_raw p perimeter t ∧
      cut1_y_raw p perimeter t
        ≤ p.cut1StartHeight + 2 * amplitude p.majorAxis p.cut1Angle) ∧
    (0 ≤ p.cut2Angle →
      p.cut2StartHeight ≤ cut2_y_raw p perimeter t ∧
      cut2_y_raw p perimeter t
        ≤ p.cut2StartHeight + 2 * amplitude p.majorAxis p.cut2Angle) ∧
    (p.cut1Angle ≤ 0 →
      p.cut1StartHeight + 2 * amplitude p.majorAxis p.cut1Angle ≤ cut1_y_raw p perimeter t ∧
      cut1_y_raw p perimeter t ≤ p.cut1StartHeight) ∧
    (p.cut2Angle ≤ 0 →
      p.cut2StartHeight + 2 * amplitude p.majorAxis p.cut2Angle ≤ cut2_y_raw p perimeter t ∧
      cut2_y_raw p perimeter t ≤ p.cut2StartHeight) ∧
    cut1_y_raw p perimeter 0 = p.cut1StartHeight := by
  have hs1a := Real.neg_one_le_sin (2 * Real.pi * t / perimeter - Real.pi / 2)
  have hs1b := Real.sin_le_one (2 * Real.pi * t / perimeter - Real.pi / 2)
  have hs2a := Real.neg_one_le_sin (2 * Real.pi * t / perimeter + Real.pi / 2)
  have hs2b := Real.sin_le_one (2 * Real.pi * t / perimeter + Real.pi / 2)
  refine ⟨?_, ?_, ?_, ?_, cut1_raw_zero p perimeter⟩
  · intro h0
    have hamp := amplitude_nonneg hA.le h0 h1r.le
    unfold cut1_y_raw
    constructor <;> nlinarith
  · intro h0
    have hamp := amplitude_nonneg hA.le h0 h2r.le
    unfold cut2_y_raw
    constructor <;> nlinarith
  · intro h0
    have hamp := amplitude_nonpos hA.le h0 h1l.le
    unfold cut1_y_raw
    constructor <;> nlinarith
  · intro h0
    have hamp := amplitude_nonpos hA.le h0 h2l.le
    unfold cut2_y_raw
    constructor <;> nlinarith

/-- Witness for C10 at the script's own configuration, perimeter 1, `t` at
the midpoint of the sweep. -/
theorem cutLines_envelope_witness :
    (0 ≤ defaultParams.cut1Angle →
      defaultParams.cut1StartHeight ≤ cut1_y_raw defaultParams 1 (1 / 2) ∧
      cut1_y_raw defaultParams 1 (1 / 2)
        ≤ defaultParams.cut1StartHeight
            + 2 * amplitude defaultParams.majorAxis defaultParams.cut1Angle) ∧
    (0 ≤ defaultParams.cut2Angle →
      defaultParams.cut2StartHeight ≤ cut2_y_raw defaultParams 1 (1 / 2) ∧
      cut2_y_raw defaultParams 1 (1 / 2)
        ≤ defaultParams.cut2StartHeight
            + 2 * amplitude defaultParams.majorAxis defaultParams.cut2Angle) ∧
    (defaultParams.cut1Angle ≤ 0 →
      defaultParams.cut1StartHeight
          + 2 * amplitude defaultParams.majorAxis defaultParams.cut1Angle
        ≤ cut1_y_raw defaultParams 1 (1 / 2) ∧
      cut1_y_raw defaultParams 1 (1 / 2) ≤ defaultParams.cut1StartHeight) ∧
    (defaultParams.cut2Angle ≤ 0 →
      defaultParams.cut2StartHeight
          + 2 * amplitude defaultParams.majorAxis defaultParams.cut2Angle
        ≤ cut2_y_raw defaultParams 1 (1 / 2) ∧
      cut2_y_raw defaultParams 1 (1 / 2) ≤ defaultParams.cut2StartHeight) ∧
    cut1_y_raw defaultParams 1 0 = defaultParams.cut1StartHeight :=
  cutLines_envelope defaultParams 1 (1 / 2) (by norm_num [defaultParams])
    (by norm_num [defaultParams]) (by norm_num [defaultParams])
    (by norm_num [defaultParams]) (by norm_num [defaultParams])

/-- Witness for C5 at the script's own configuration. -/
theorem computeNet_deterministic_witness :
    computeNet defaultParams = computeNet defaultParams ∧
    (computeNetGeom defaultParams).samples = (computeNetGeom defaultParams).samples ∧
    (computeNetGeom defaultParams).bottomEdge = (computeNetGeom defaultParams).bottomEdge ∧
    (computeNetGeom defaultParams).cutLine1 = (computeNetGeom defaultParams).cutLine1 ∧
    (computeNetGeom defaultParams).cutLine2 = (computeNetGeom defaultParams).cutLine2 :=
  computeNet_deterministic defaultParams defaultParams rfl

end ElipticalPrismNet
